import Mathlib

/-!
Shallow embedding of the inspection-lifecycle, migration and backup core of
the spare-parts management system (src/app.py, src/db_migration.py).

Dates are calendar dates (year, month, day) as held by Python `datetime.date`
columns; date subtraction is modelled through a day-ordinal function, and
`dateutil.relativedelta(months=n)` through `Date.addMonths`.  Python `float`
arithmetic on day counts is modelled over `ℚ` (the comparisons the code makes
are exact at the decision boundaries, so the rational model agrees with the
float one on every branch the code takes).
-/

namespace SparePartsSys

/-- Calendar date, as stored in the `db.Date` columns (`datetime.date`). -/
structure Date where
  year : Int
  month : Nat
  day : Nat
  deriving DecidableEq, Repr

/-- Gregorian leap-year rule used by `datetime._days_in_month`. -/
def isLeapYear (y : Int) : Bool :=
  y % 4 == 0 && (y % 100 != 0 || y % 400 == 0)

/-- Number of days in a month of a given year. -/
def daysInMonth (y : Int) (m : Nat) : Nat :=
  if m == 2 then (if isLeapYear y then 29 else 28)
  else if m == 4 || m == 6 || m == 9 || m == 11 then 30
  else 31

/-- Calendar-month addition, the semantics of
`date + dateutil.relativedelta(months := n)`: the month index is shifted by
`n` (carrying into the year) and the day of month is clamped to the length of
the target month. -/
def Date.addMonths (d : Date) (n : Int) : Date :=
  let t : Int := (d.month : Int) - 1 + n
  let y : Int := d.year + t.fdiv 12
  let m : Nat := (t.fmod 12).toNat + 1
  { year := y, month := m, day := min d.day (daysInMonth y m) }

/-- Day ordinal of a date (days since 1970-01-01, civil-from-days algorithm).
Only differences of ordinals are ever used, mirroring Python
`(a - b).days`. -/
def Date.toOrdinal (d : Date) : Int :=
  let y : Int := if d.month ≤ 2 then d.year - 1 else d.year
  let era : Int := y.fdiv 400
  let yoe : Int := y - era * 400
  let mp : Int := ((d.month : Int) + 9) % 12
  let doy : Int := (153 * mp + 2).fdiv 5 + (d.day : Int) - 1
  let doe : Int := yoe * 365 + yoe.fdiv 4 - yoe.fdiv 100 + doy
  era * 146097 + doe - 719468

/-- Python date subtraction `(a - b).days`. -/
def daysBetween (a b : Date) : Int :=
  a.toOrdinal - b.toOrdinal

/-- Python `round(x, 2)` on the progress percentage (2-decimal rounding; the
properties proved below only evaluate it at integers, where every tie-breaking
convention agrees). -/
def round2 (q : ℚ) : ℚ :=
  (round (q * 100) : ℤ) / 100

/-- The progress computation of `SparePart.to_dict` (src/app.py lines
672-695) for a part that has a `next_inspection_date`, before rounding.
`today` is `datetime.now().date()`. -/
def inspectionProgressRaw (lastInsp : Option Date) (nextInsp today : Date) : ℚ :=
  let daysTo : Int := daysBetween nextInsp today
  match lastInsp with
  | some last =>
      let totalDays : Int := daysBetween nextInsp last
      if totalDays > 0 then
        max 0 (min 100 ((daysTo : ℚ) / (totalDays : ℚ) * 100))
      else
        if daysTo < 0 then 0 else 100
  | none =>
      if daysTo ≥ 365 then 100
      else if daysTo < 0 then 0
      else (daysTo : ℚ) / 365 * 100

/-- The `inspection_progress` field of `SparePart.to_dict`: `0` when there is
no `next_inspection_date`, otherwise the rounded raw progress. -/
def inspectionProgress (lastInsp nextInsp : Option Date) (today : Date) : ℚ :=
  match nextInsp with
  | none => 0
  | some nxt => round2 (inspectionProgressRaw lastInsp nxt today)

/-- The `days_to_inspection` field of `SparePart.to_dict`. -/
def daysToInspection (nextInsp : Option Date) (today : Date) : Option Int :=
  nextInsp.map (fun nxt => daysBetween nxt today)

/-- The application-layer inspection-status filter of `get_spare_parts`
(src/app.py lines 1032-1052): whether one part passes a given
`inspection_status` filter value.  `months_diff = days_diff / 30` is real
division (modelled over `ℚ`). -/
def matchesInspectionStatus (status : String) (nextInsp : Option Date)
    (today : Date) : Bool :=
  match nextInsp with
  | none => status == "no_inspection"
  | some nxt =>
      let daysDiff : Int := daysBetween nxt today
      let monthsDiff : ℚ := (daysDiff : ℚ) / 30
      if status == "expired" && daysDiff < 0 then true
      else if status == "urgent" && decide (0 ≤ monthsDiff ∧ monthsDiff ≤ 3) then true
      else if status == "warning" && decide (3 < monthsDiff ∧ monthsDiff ≤ 6) then true
      else if status == "normal" && decide (monthsDiff > 6) then true
      else false

/-- One row of the spare-parts table, restricted to the column the
inspection-status filter reads. -/
structure PartRow where
  nextInspectionDate : Option Date
  deriving DecidableEq, Repr

/-- The filtering step of `get_spare_parts`: an empty `inspection_status`
parameter (falsy in Python) leaves the list alone, a non-empty one keeps
exactly the parts accepted by `matchesInspectionStatus`. -/
def filterByInspectionStatus (status : String) (today : Date)
    (parts : List PartRow) : List PartRow :=
  if status == "" then parts
  else parts.filter (fun p => matchesInspectionStatus status p.nextInspectionDate today)

/-- A field of a JSON request payload: missing from the object, present as
`null` (or another falsy/unparseable value where the route tests truthiness),
or present with a usable value. -/
inductive JField (α : Type) where
  | absent
  | null
  | val (a : α)
  deriving DecidableEq, Repr

/-- The plain guarded assignment pattern of `update_spare_part`
(`if 'f' in data: part.f = data['f']`, with the date fields additionally
mapping a falsy value to `None`): absent leaves the attribute alone, `null`
clears it, a value overwrites it. -/
def JField.apply {α : Type} (cur : Option α) : JField α → Option α
  | .absent => cur
  | .null => none
  | .val a => some a

/-- The doubly-guarded assignment used only for `purchase_date`
(`if 'purchase_date' in data and data['purchase_date']:`): the attribute is
written only when the field is present with a truthy value. -/
def JField.applyTruthyOnly {α : Type} (cur : Option α) : JField α → Option α
  | .val a => some a
  | _ => cur

/-- A `spare_parts` row.  Columns are `Option`-typed like the in-memory ORM
attributes (the route bodies can assign `None` to any of them); `updatedAt`
is an abstract timestamp. -/
structure SparePart where
  id : Nat
  name : Option String
  assetNumber : String
  deviceType : Option String
  lastInspectionDate : Option Date
  nextInspectionDate : Option Date
  usageStatus : Option String
  storageLocation : Option String
  specifications : Option String
  manufacturer : Option String
  purchaseDate : Option Date
  warrantyPeriod : Option Int
  unitPrice : Option ℚ
  remarks : Option String
  ownership : Option String
  productNumber : Option String
  updatedAt : Nat
  deriving DecidableEq, Repr

/-- The updatable fields accepted by `update_spare_part` (src/app.py lines
1143-1176); `id`, `asset_number` and the timestamps are never read from the
payload. -/
structure SparePartUpdate where
  name : JField String
  deviceType : JField String
  lastInspectionDate : JField Date
  nextInspectionDate : JField Date
  usageStatus : JField String
  storageLocation : JField String
  specifications : JField String
  manufacturer : JField String
  purchaseDate : JField Date
  warrantyPeriod : JField Int
  unitPrice : JField ℚ
  remarks : JField String
  ownership : JField String
  productNumber : JField String
  deriving DecidableEq, Repr

/-- The field assignments of `update_spare_part`: every field uses the plain
guarded assignment except `purchase_date`, whose guard also tests the value's
truthiness. -/
def applySparePartUpdate (sp : SparePart) (u : SparePartUpdate) : SparePart :=
  { sp with
    name := u.name.apply sp.name
    deviceType := u.deviceType.apply sp.deviceType
    lastInspectionDate := u.lastInspectionDate.apply sp.lastInspectionDate
    nextInspectionDate := u.nextInspectionDate.apply sp.nextInspectionDate
    usageStatus := u.usageStatus.apply sp.usageStatus
    storageLocation := u.storageLocation.apply sp.storageLocation
    specifications := u.specifications.apply sp.specifications
    manufacturer := u.manufacturer.apply sp.manufacturer
    purchaseDate := u.purchaseDate.applyTruthyOnly sp.purchaseDate
    warrantyPeriod := u.warrantyPeriod.apply sp.warrantyPeriod
    unitPrice := u.unitPrice.apply sp.unitPrice
    remarks := u.remarks.apply sp.remarks
    ownership := u.ownership.apply sp.ownership
    productNumber := u.productNumber.apply sp.productNumber }

/-- A `maintenance_records` row. -/
structure MaintenanceRecord where
  id : Nat
  sparePartId : Nat
  operatorName : String
  maintenanceDate : Date
  maintenanceType : Option String
  maintenanceContent : Option String
  lastInspectionDate : Option Date
  inspectionValidityPeriod : Option Int
  nextInspectionDate : Option Date
  maintenanceCost : Option ℚ
  remarks : Option String
  deriving DecidableEq, Repr

/-- The persistent entity store (the two tables the cited routes touch). -/
structure Store where
  parts : List SparePart
  records : List MaintenanceRecord
  deriving DecidableEq, Repr

/-- Payload of `POST /api/maintenance-records`.  `lastInspectionDate` is
`some d` exactly when `data.get('last_inspection_date')` is truthy (a
non-empty date string); `inspectionValidityPeriod` holds the JSON integer if
present (`0` is falsy in Python and is tested by the route). -/
structure MaintCreatePayload where
  sparePartId : Nat
  operatorName : String
  maintenanceDate : Date
  maintenanceType : Option String
  maintenanceContent : Option String
  lastInspectionDate : Option Date
  inspectionValidityPeriod : Option Int
  maintenanceCost : Option ℚ
  remarks : Option String
  deriving DecidableEq, Repr

/-- Payload of `PUT /api/maintenance-records/<id>` (same fields, but the
record's `spare_part_id` is never read from the payload). -/
structure MaintUpdatePayload where
  operatorName : String
  maintenanceDate : Date
  maintenanceType : Option String
  maintenanceContent : Option String
  lastInspectionDate : Option Date
  inspectionValidityPeriod : Option Int
  maintenanceCost : Option ℚ
  remarks : Option String
  deriving DecidableEq, Repr

/-- The next-inspection-date computation shared by the create and update
routes: `if data.get('last_inspection_date') and
data.get('inspection_validity_period'):` — both values must be truthy (so a
supplied period of `0` skips the computation), and then
`next = last + relativedelta(months=validity_months)`. -/
def computeNextInspection (lastInsp : Option Date) (validity : Option Int) :
    Option Date :=
  match lastInsp, validity with
  | some last, some m => if m = 0 then none else some (last.addMonths m)
  | _, _ => none

/-- The synchronization block of both maintenance routes: look up the parent
part by id; when it exists, push the record's truthy inspection dates onto it
and stamp `updated_at = datetime.utcnow()`.  When no part has the id, nothing
changes (the `if spare_part:` guard falls through silently). -/
def syncPartDates (now : Nat) (recLast recNext : Option Date) (pid : Nat)
    (parts : List SparePart) : List SparePart :=
  parts.map fun sp =>
    if sp.id = pid then
      { sp with
        lastInspectionDate := if recLast.isSome then recLast else sp.lastInspectionDate
        nextInspectionDate := if recNext.isSome then recNext else sp.nextInspectionDate
        updatedAt := now }
    else sp

/-- Autoincrement id for a fresh maintenance record. -/
def nextRecordId (st : Store) : Nat :=
  (st.records.map (fun r => r.id)).foldr max 0 + 1

/-- `create_maintenance_record` (src/app.py lines 1382-1434): build the
record (with the derived `next_inspection_date`), add it to the session, run
the synchronization block, commit, and answer success.  SQLite does not
enforce the foreign key (the `foreign_keys` pragma is never enabled), so the
commit — and hence the success response — happens even when no spare part has
the given id. -/
def create_maintenance_record (now : Nat) (st : Store) (p : MaintCreatePayload) :
    Bool × Store :=
  let nextInsp := computeNextInspection p.lastInspectionDate p.inspectionValidityPeriod
  let newRecord : MaintenanceRecord :=
    { id := nextRecordId st
      sparePartId := p.sparePartId
      operatorName := p.operatorName
      maintenanceDate := p.maintenanceDate
      maintenanceType := p.maintenanceType
      maintenanceContent := p.maintenanceContent
      lastInspectionDate := p.lastInspectionDate
      inspectionValidityPeriod := p.inspectionValidityPeriod
      nextInspectionDate := nextInsp
      maintenanceCost := p.maintenanceCost
      remarks := p.remarks }
  let parts := syncPartDates now newRecord.lastInspectionDate
    newRecord.nextInspectionDate p.sparePartId st.parts
  (true, { parts := parts, records := st.records ++ [newRecord] })

/-- `update_maintenance_record` (src/app.py lines 1451-1499): 404 when the
record id is unknown; otherwise overwrite every record field from the
payload, recompute `next_inspection_date`, and run the same synchronization
block against the record's (unchanged) `spare_part_id`. -/
def update_maintenance_record (now : Nat) (st : Store) (rid : Nat)
    (p : MaintUpdatePayload) : Bool × Store :=
  match st.records.find? (fun r => r.id == rid) with
  | none => (false, st)
  | some r =>
      let nextInsp := computeNextInspection p.lastInspectionDate p.inspectionValidityPeriod
      let r' : MaintenanceRecord :=
        { r with
          operatorName := p.operatorName
          maintenanceDate := p.maintenanceDate
          maintenanceType := p.maintenanceType
          maintenanceContent := p.maintenanceContent
          lastInspectionDate := p.lastInspectionDate
          inspectionValidityPeriod := p.inspectionValidityPeriod
          nextInspectionDate := nextInsp
          maintenanceCost := p.maintenanceCost
          remarks := p.remarks }
      let records := st.records.map fun x => if x.id = rid then r' else x
      let parts := syncPartDates now r'.lastInspectionDate r'.nextInspectionDate
        r.sparePartId st.parts
      (true, { parts := parts, records := records })

/-- `update_spare_part` (src/app.py lines 1133-1190): 404 when the part id is
unknown, otherwise apply the guarded field assignments and commit. -/
def update_spare_part (st : Store) (pid : Nat) (u : SparePartUpdate) :
    Bool × Store :=
  if st.parts.any (fun sp => sp.id == pid) then
    (true, { st with parts := st.parts.map fun sp =>
        if sp.id = pid then applySparePartUpdate sp u else sp })
  else (false, st)

/-- Target schema version (`CURRENT_DB_VERSION` in src/db_migration.py). -/
def CURRENT_DB_VERSION : Int := 1

/-- Exception model for one migration run: which primitive operation raises.
`stepInnerRaises` stands for an exception inside the `try`-guarded
check-and-create block of `migrate_to_v1`; `setVersionRaises` for one raised
while inserting the version-log row in `set_db_version`. -/
structure MigFaults where
  stepInnerRaises : Bool
  setVersionRaises : Bool
  deriving DecidableEq, Repr

/-- The sqlite database as the migrator sees it: the set of existing tables
and the `db_version` rows (version numbers) in insertion order. -/
structure MigDB where
  tables : List String
  log : List Int
  deriving DecidableEq, Repr

/-- `get_db_version`: the latest `db_version` row (`ORDER BY id DESC LIMIT
1`), or `0` when the table is missing (the `OperationalError` branch) or
empty. -/
def get_db_version (db : MigDB) : Int :=
  if "db_version" ∈ db.tables then (db.log.getLast?).getD 0 else 0

/-- `create_db_version_table` (`CREATE TABLE IF NOT EXISTS db_version …`). -/
def create_db_version_table (db : MigDB) : MigDB :=
  if "db_version" ∈ db.tables then db
  else { db with tables := db.tables ++ ["db_version"] }

/-- `set_db_version`: insert one version row; when the insert raises nothing
is written.  The `Except` error carries the database state at the raise. -/
def set_db_version (f : MigFaults) (db : MigDB) (v : Int) : Except MigDB MigDB :=
  if f.setVersionRaises then .error db
  else .ok { db with log := db.log ++ [v] }

/-- The check-and-create body of `migrate_to_v1`: create `attachments` and
`historical_documents` when absent. -/
def ensureV1Tables (db : MigDB) : MigDB :=
  let db1 :=
    if "attachments" ∈ db.tables then db
    else { db with tables := db.tables ++ ["attachments"] }
  if "historical_documents" ∈ db1.tables then db1
  else { db1 with tables := db1.tables ++ ["historical_documents"] }

/-- `migrate_to_v1` (src/db_migration.py lines 114-166): the check-and-create
block is wrapped in its own `try/except Exception`, so an exception raised
inside it is caught, printed as a warning, and execution continues;
`set_db_version(conn, 1, …)` then runs in either case and is the only
statement whose exception escapes the step. -/
def migrate_to_v1 (f : MigFaults) (db : MigDB) : Except MigDB MigDB :=
  let db1 := if f.stepInnerRaises then db else ensureV1Tables db
  set_db_version f db1 1

/-- `check_and_migrate` (src/db_migration.py lines 61-111): returns the
success flag together with the database state left behind.  `fileExists`
models the `os.path.exists(db_path)` guard — when the file is absent the
function returns `True` immediately, touching nothing.  With
`CURRENT_DB_VERSION = 1` the `current_version < CURRENT_DB_VERSION` branch
runs exactly the single step `migrate_to_v1`; an exception escaping the step
is caught by the outer handler, which returns `False`. -/
def check_and_migrate (f : MigFaults) (fileExists : Bool) (db : MigDB) :
    Bool × MigDB :=
  if !fileExists then (true, db)
  else
    let db1 := create_db_version_table db
    let v := get_db_version db1
    if v = CURRENT_DB_VERSION then (true, db1)
    else if v < CURRENT_DB_VERSION then
      match migrate_to_v1 f db1 with
      | .ok db2 => (true, db2)
      | .error db2 => (false, db2)
    else (true, db1)

/-- The `__main__` startup gate (src/app.py lines 2593-2599): the process
aborts (`sys.exit(1)`) exactly when `check_and_migrate()` returned `False`. -/
def startupAborts (result : Bool × MigDB) : Bool := !result.1

/-- A fault-free run: no database operation raises. -/
def noFaults : MigFaults := ⟨false, false⟩

/-- An APScheduler job; only its identity and firing time matter here. -/
structure Job where
  id : String
  hour : Nat
  minute : Nat
  deriving DecidableEq, Repr

/-- An APScheduler `BackgroundScheduler`: lifecycle state plus job list.
Semantics modelled from APScheduler 3.x (`BaseScheduler.shutdown` raises
`SchedulerNotRunningError` when the scheduler state is `STATE_STOPPED`). -/
structure Scheduler where
  running : Bool
  jobs : List Job
  deriving DecidableEq, Repr

/-- `BackgroundScheduler.shutdown()`: stops a running scheduler, raises on a
stopped one. -/
def Scheduler.shutdown (s : Scheduler) : Except Unit Scheduler :=
  if s.running then .ok { s with running := false } else .error ()

/-- Backup configuration (`load_backup_config` defaults are
`auto_backup_enabled = True`, `backup_time = "02:00"`, `keep_days = 30`,
`backup_type = "both"`); the `HH:MM` string is kept parsed. -/
structure BackupConfig where
  autoBackupEnabled : Bool
  backupHour : Nat
  backupMinute : Nat
  keepDays : Int
  backupType : String
  deriving DecidableEq, Repr

/-- The module-level state the backup-config route touches: the global
`backup_scheduler` variable and the persisted config file. -/
structure SchedulerState where
  scheduler : Option Scheduler
  config : BackupConfig
  deriving DecidableEq, Repr

/-- `init_backup_scheduler` (src/app.py lines 609-632): when auto backup is
disabled, log and return, leaving the global untouched; otherwise build a
fresh `BackgroundScheduler`, add the single `auto_backup` cron job at the
configured time, start it, and assign it to the global. -/
def init_backup_scheduler (g : Option Scheduler) (cfg : BackupConfig) :
    Option Scheduler :=
  if !cfg.autoBackupEnabled then g
  else some { running := true,
              jobs := [⟨"auto_backup", cfg.backupHour, cfg.backupMinute⟩] }

/-- `shutdown_backup_scheduler` (src/app.py lines 634-639): calls
`backup_scheduler.shutdown()` whenever the global is set — propagating
`SchedulerNotRunningError` if that scheduler was already stopped — and never
reassigns the global (in particular it is not reset to `None`). -/
def shutdown_backup_scheduler (g : Option Scheduler) :
    Except Unit (Option Scheduler) :=
  match g with
  | none => .ok none
  | some s => s.shutdown.map some

/-- Partial payload of `PUT /api/backup/config` (each key optional). -/
structure BackupConfigUpdate where
  autoBackupEnabled : Option Bool
  backupTime : Option (Nat × Nat)
  keepDays : Option Int
  backupType : Option String
  deriving DecidableEq, Repr

/-- The config-merging block of `update_backup_config`. -/
def mergeBackupConfig (cfg : BackupConfig) (u : BackupConfigUpdate) :
    BackupConfig :=
  { autoBackupEnabled := u.autoBackupEnabled.getD cfg.autoBackupEnabled
    backupHour := (u.backupTime.map Prod.fst).getD cfg.backupHour
    backupMinute := (u.backupTime.map Prod.snd).getD cfg.backupMinute
    keepDays := u.keepDays.getD cfg.keepDays
    backupType := u.backupType.getD cfg.backupType }

/-- `update_backup_config` (src/app.py lines 2369-2401): merge the payload
into the loaded config, persist it with `save_backup_config`, then restart
the scheduler via `shutdown_backup_scheduler(); init_backup_scheduler()`.
The body runs inside `try/except`: an exception raised by the shutdown call
produces a 500 failure response — but the new config was already saved, and
the global scheduler keeps its previous value. -/
def update_backup_config (st : SchedulerState) (u : BackupConfigUpdate) :
    Bool × SchedulerState :=
  let cfg' := mergeBackupConfig st.config u
  match shutdown_backup_scheduler st.scheduler with
  | .error _ => (false, { scheduler := st.scheduler, config := cfg' })
  | .ok g' => (true, { scheduler := init_backup_scheduler g' cfg', config := cfg' })

/-- The scheduled jobs that will actually fire: those of a running
scheduler. -/
def activeJobs (g : Option Scheduler) : List Job :=
  match g with
  | some s => if s.running then s.jobs else []
  | none => []

/-- Python `str.startswith` on the character sequences of the strings. -/
def strStartsWith (s pre : String) : Bool :=
  pre.data.isPrefixOf s.data

/-- Artifact-name validation shared by the backup routes and the retention
sweeper: the two recognized name prefixes. -/
def isBackupFilename (name : String) : Bool :=
  strStartsWith name "database_backup_" || strStartsWith name "excel_backup_"

/-- A file in the backup directory. -/
structure BackupFile where
  name : String
  mtimeSec : Int
  sizeBytes : Nat
  deriving DecidableEq, Repr

/-- Outcome of an artifact route. -/
inductive FileResponse where
  | invalidName
  | notFound
  | ok
  deriving DecidableEq, Repr

/-- `download_backup` (src/app.py lines 2479-2502): the prefix check runs
before any path is formed or touched; the second component records the
file-system paths the call accesses (`os.path.exists`,
`send_from_directory`). -/
def download_backup (fs : List BackupFile) (name : String) :
    FileResponse × List String :=
  if !isBackupFilename name then (.invalidName, [])
  else if (fs.find? (fun f => f.name == name)).isSome then (.ok, [name])
  else (.notFound, [name])

/-- `delete_backup` (src/app.py lines 2505-2528): prefix check first, then
existence check, then `os.remove`.  Returns the response, the directory
contents afterwards, and the accessed paths. -/
def delete_backup (fs : List BackupFile) (name : String) :
    FileResponse × List BackupFile × List String :=
  if !isBackupFilename name then (.invalidName, fs, [])
  else if (fs.find? (fun f => f.name == name)).isSome then
    (.ok, fs.filter (fun f => !(f.name == name)), [name])
  else (.notFound, fs, [name])

/-- `list_backups` (src/app.py lines 2438-2476): enumerate the backup
directory, skipping every file whose name lacks both recognized prefixes.
(The route also sorts the survivors by creation time for display, which does
not change which files appear.) -/
def list_backups (fs : List BackupFile) : List BackupFile :=
  fs.filter (fun f => isBackupFilename f.name)

/-- `cleanup_old_backups` (src/app.py lines 576-604): with
`cutoff = now - timedelta(days=keep_days)` (seconds here), delete each
recognized backup file whose mtime is strictly older than the cutoff,
skipping unrecognized names before any `os.path` call on them.  Returns the
surviving directory and the deleted files. -/
def cleanup_old_backups (nowSec keepDays : Int) (fs : List BackupFile) :
    List BackupFile × List BackupFile :=
  let cutoff := nowSec - keepDays * 86400
  (fs.filter (fun f => !(isBackupFilename f.name && decide (f.mtimeSec < cutoff))),
   fs.filter (fun f => isBackupFilename f.name && decide (f.mtimeSec < cutoff)))

/-- A concrete spare part used by the concrete-input theorems below. -/
def samplePart : SparePart :=
  { id := 1
    name := some "pump"
    assetNumber := "ZC-001"
    deviceType := some "pump"
    lastInspectionDate := some ⟨2023, 6, 1⟩
    nextInspectionDate := some ⟨2023, 12, 1⟩
    usageStatus := some "在库"
    storageLocation := some "A-1"
    specifications := none
    manufacturer := none
    purchaseDate := some ⟨2020, 5, 1⟩
    warrantyPeriod := some 12
    unitPrice := some 100
    remarks := none
    ownership := none
    productNumber := none
    updatedAt := 0 }

/-- The all-absent update payload (a PUT request with an empty JSON body). -/
def emptyUpdate : SparePartUpdate :=
  { name := .absent, deviceType := .absent, lastInspectionDate := .absent,
    nextInspectionDate := .absent, usageStatus := .absent,
    storageLocation := .absent, specifications := .absent,
    manufacturer := .absent, purchaseDate := .absent, warrantyPeriod := .absent,
    unitPrice := .absent, remarks := .absent, ownership := .absent,
    productNumber := .absent }

/-- Store holding the single sample part and no maintenance records. -/
def c1Store : Store := { parts := [samplePart], records := [] }

/-- Maintenance-creation payload supplying `last_inspection_date=2024-01-15`
and `inspection_validity_period=0`. -/
def c1PayloadZero : MaintCreatePayload :=
  { sparePartId := 1, operatorName := "op", maintenanceDate := ⟨2024, 1, 20⟩,
    maintenanceType := some "calibration", maintenanceContent := none,
    lastInspectionDate := some ⟨2024, 1, 15⟩, inspectionValidityPeriod := some 0,
    maintenanceCost := none, remarks := none }

/-- The same payload with a 6-month validity period. -/
def c1Payload6 : MaintCreatePayload :=
  { c1PayloadZero with inspectionValidityPeriod := some 6 }

/-- A pre-existing maintenance record (id 5) of the sample part. -/
def c1Record : MaintenanceRecord :=
  { id := 5, sparePartId := 1, operatorName := "op0",
    maintenanceDate := ⟨2023, 6, 1⟩, maintenanceType := none,
    maintenanceContent := none, lastInspectionDate := none,
    inspectionValidityPeriod := none, nextInspectionDate := none,
    maintenanceCost := none, remarks := none }

/-- Store holding the sample part and the pre-existing record. -/
def c1StoreU : Store := { parts := [samplePart], records := [c1Record] }

/-- Maintenance-update payload supplying `last_inspection_date=2024-01-15`
and `inspection_validity_period=6`. -/
def c1UpdatePayload : MaintUpdatePayload :=
  { operatorName := "op", maintenanceDate := ⟨2024, 1, 20⟩,
    maintenanceType := none, maintenanceContent := none,
    lastInspectionDate := some ⟨2024, 1, 15⟩,
    inspectionValidityPeriod := some 6, maintenanceCost := none,
    remarks := none }

/-- Update payload supplying `purchase_date: null` and `remarks: null` and
nothing else. -/
def c6Update : SparePartUpdate :=
  { emptyUpdate with purchaseDate := .null, remarks := .null }

/-- Maintenance-creation payload naming spare part 1 (which will not exist in
the store it is run against). -/
def c7Payload : MaintCreatePayload :=
  { sparePartId := 1, operatorName := "op", maintenanceDate := ⟨2024, 1, 1⟩,
    maintenanceType := none, maintenanceContent := none,
    lastInspectionDate := none, inspectionValidityPeriod := none,
    maintenanceCost := none, remarks := none }

/-- Scheduler state with auto backup enabled and its one job scheduled at
02:00 (the state after a normal startup). -/
def c8Init : SchedulerState :=
  { scheduler := some { running := true, jobs := [⟨"auto_backup", 2, 0⟩] },
    config := { autoBackupEnabled := true, backupHour := 2, backupMinute := 0,
                keepDays := 30, backupType := "both" } }

/-- Config update disabling auto backup. -/
def c8Disable : BackupConfigUpdate :=
  { autoBackupEnabled := some false, backupTime := none, keepDays := none,
    backupType := none }

/-- Config update re-enabling auto backup at the new time 03:00. -/
def c8Reenable : BackupConfigUpdate :=
  { autoBackupEnabled := some true, backupTime := some (3, 0), keepDays := none,
    backupType := none }

/-- A backup directory with one recognized artifact and one unrelated file. -/
def c9Dir : List BackupFile :=
  [⟨"database_backup_20240101_020000.db", 1704000000, 4096⟩,
   ⟨"notes.txt", 1704000000, 10⟩]

theorem create_db_version_table_log (db : MigDB) :
    (create_db_version_table db).log = db.log := by
  unfold create_db_version_table; split <;> rfl

theorem create_db_version_table_mem (db : MigDB) :
    "db_version" ∈ (create_db_version_table db).tables := by
  unfold create_db_version_table
  split
  · assumption
  · simp

theorem create_db_version_table_of_mem (db : MigDB)
    (h : "db_version" ∈ db.tables) : create_db_version_table db = db := by
  unfold create_db_version_table
  rw [if_pos h]

theorem ensureV1Tables_log (db : MigDB) : (ensureV1Tables db).log = db.log := by
  unfold ensureV1Tables
  split <;> simp only [] <;> split <;> rfl

theorem ensureV1Tables_mem (db : MigDB) (s : String) (h : s ∈ db.tables) :
    s ∈ (ensureV1Tables db).tables := by
  unfold ensureV1Tables
  split <;> simp only [] <;> split <;> simp_all

end SparePartsSys

-- sanity checks on the calendar model
example : SparePartsSys.Date.addMonths ⟨2024, 1, 15⟩ 6 = ⟨2024, 7, 15⟩ := by decide
example : SparePartsSys.Date.addMonths ⟨2024, 1, 31⟩ 1 = ⟨2024, 2, 29⟩ := by decide
example : SparePartsSys.Date.addMonths ⟨2023, 11, 30⟩ 3 = ⟨2024, 2, 29⟩ := by decide
example : SparePartsSys.daysBetween ⟨2024, 7, 15⟩ ⟨2024, 1, 15⟩ = 182 := by decide
example : SparePartsSys.daysBetween ⟨1970, 1, 2⟩ ⟨1970, 1, 1⟩ = 1 := by decide
example : SparePartsSys.Date.toOrdinal ⟨1970, 1, 1⟩ = 0 := by decide
example : SparePartsSys.Date.toOrdinal ⟨2024, 3, 1⟩ - SparePartsSys.Date.toOrdinal ⟨2024, 2, 28⟩ = 2 := by decide

namespace SparePartsSys

/-- C1.  Counterexample to the claim as stated: a creation payload that
supplies both `lastInspectionDate = 2024-01-15` and
`inspectionValidityPeriodMonths = 0` does NOT get
`nextInspectionDate = lastInspectionDate + 0 months`; the integer `0` is
falsy in Python, the computation is skipped, the record's
`next_inspection_date` stays `None`, and the parent keeps its old
`next_inspection_date`. -/
theorem C1_counterexample :
    ((create_maintenance_record 7 c1Store c1PayloadZero).2.records.map
        (fun r => r.nextInspectionDate)) = [none] ∧
    ((create_maintenance_record 7 c1Store c1PayloadZero).2.parts.map
        (fun sp => sp.nextInspectionDate)) = [some ⟨2023, 12, 1⟩] ∧
    [(none : Option Date)] ≠ [some (Date.addMonths ⟨2024, 1, 15⟩ 0)] := by
  decide

/-- C1 (amended).  For every MaintenanceRecord created or updated whose
payload supplies a truthy `lastInspectionDate` and a truthy (nonzero)
`inspectionValidityPeriodMonths`, the record's `nextInspectionDate` is
`lastInspectionDate` plus that many calendar months, and the record's
non-null dates are pushed unconditionally onto the parent SparePart (the
part with the record's `spare_part_id`, when it exists), overwriting its
values and refreshing its `updatedAt`; other parts are untouched. -/
theorem C1_calendar_month_sync (now : Nat) (st st2 : Store)
    (p : MaintCreatePayload) (q : MaintUpdatePayload) (rid : Nat)
    (r0 : MaintenanceRecord) (last : Date) (m : Int)
    (hplast : p.lastInspectionDate = some last)
    (hpm : p.inspectionValidityPeriod = some m)
    (hqlast : q.lastInspectionDate = some last)
    (hqm : q.inspectionValidityPeriod = some m)
    (hm : m ≠ 0)
    (hr : st2.records.find? (fun x => x.id == rid) = some r0) :
    ((create_maintenance_record now st p).1 = true ∧
     (create_maintenance_record now st p).2.records
        = st.records ++
          [{ id := nextRecordId st, sparePartId := p.sparePartId,
             operatorName := p.operatorName,
             maintenanceDate := p.maintenanceDate,
             maintenanceType := p.maintenanceType,
             maintenanceContent := p.maintenanceContent,
             lastInspectionDate := some last,
             inspectionValidityPeriod := some m,
             nextInspectionDate := some (last.addMonths m),
             maintenanceCost := p.maintenanceCost, remarks := p.remarks }] ∧
     (create_maintenance_record now st p).2.parts
        = st.parts.map (fun sp =>
            if sp.id = p.sparePartId then
              { sp with lastInspectionDate := some last,
                        nextInspectionDate := some (last.addMonths m),
                        updatedAt := now }
            else sp)) ∧
    ((update_maintenance_record now st2 rid q).1 = true ∧
     (update_maintenance_record now st2 rid q).2.records
        = st2.records.map (fun x =>
            if x.id = rid then
              { r0 with operatorName := q.operatorName,
                        maintenanceDate := q.maintenanceDate,
                        maintenanceType := q.maintenanceType,
                        maintenanceContent := q.maintenanceContent,
                        lastInspectionDate := some last,
                        inspectionValidityPeriod := some m,
                        nextInspectionDate := some (last.addMonths m),
                        maintenanceCost := q.maintenanceCost,
                        remarks := q.remarks }
            else x) ∧
     (update_maintenance_record now st2 rid q).2.parts
        = st2.parts.map (fun sp =>
            if sp.id = r0.sparePartId then
              { sp with lastInspectionDate := some last,
                        nextInspectionDate := some (last.addMonths m),
                        updatedAt := now }
            else sp)) := by
  constructor
  · refine ⟨rfl, ?_, ?_⟩
    · simp [create_maintenance_record, hplast, hpm, computeNextInspection, hm]
    · simp [create_maintenance_record, syncPartDates, hplast, hpm,
        computeNextInspection, hm]
  · unfold update_maintenance_record
    rw [hr]
    refine ⟨rfl, ?_, ?_⟩
    · simp [hqlast, hqm, computeNextInspection, hm]
    · simp [syncPartDates, hqlast, hqm, computeNextInspection, hm]

/-- C1 (witness).  Creating a record with `last=2024-01-15`, `months=6`
yields `next=2024-07-15` on both the record and the parent part, and the
analogous update pushes `last=2024-01-15` onto the part. -/
theorem C1_calendar_month_sync_witness :
    ((create_maintenance_record 7 c1Store c1Payload6).2.records.map
        (fun r => r.nextInspectionDate)) = [some ⟨2024, 7, 15⟩] ∧
    ((create_maintenance_record 7 c1Store c1Payload6).2.parts.map
        (fun sp => sp.nextInspectionDate)) = [some ⟨2024, 7, 15⟩] ∧
    ((update_maintenance_record 7 c1StoreU 5 c1UpdatePayload).2.parts.map
        (fun sp => sp.lastInspectionDate)) = [some ⟨2024, 1, 15⟩] := by
  have h := C1_calendar_month_sync 7 c1Store c1StoreU c1Payload6
    c1UpdatePayload 5 c1Record ⟨2024, 1, 15⟩ 6 rfl rfl rfl rfl
    (by decide) (by decide)
  refine ⟨?_, ?_, ?_⟩
  · rw [h.1.2.1]; decide
  · rw [h.1.2.2]; decide
  · rw [h.2.2.2]; decide

/-- C2.  Counterexample to the claim as stated: when the exception is raised
inside the guarded check-and-create block of `migrate_to_v1`, it is caught by
the step's own `except` handler, the version-log entry for version 1 is still
written, `check_and_migrate` reports success, and startup proceeds. -/
theorem C2_counterexample :
    (MigFaults.mk true false).stepInnerRaises = true ∧
    (check_and_migrate ⟨true, false⟩ true ⟨[], []⟩).1 = true ∧
    (check_and_migrate ⟨true, false⟩ true ⟨[], []⟩).2.log = [1] ∧
    startupAborts (check_and_migrate ⟨true, false⟩ true ⟨[], []⟩) = false := by
  decide

/-- C2 (amended).  On a database that needs migration, an exception raised
inside the guarded table-creation block of the step is caught and logged: the
version-log entry is written anyway and the check reports success.  Only an
exception that escapes the step — one raised while inserting the version-log
row — makes `check_and_migrate` report failure, and then no version entry is
written and process startup is aborted. -/
theorem C2_step_exception_behavior (f : MigFaults) (db : MigDB)
    (h : get_db_version (create_db_version_table db) < CURRENT_DB_VERSION) :
    ((check_and_migrate f true db).1 = true ↔ f.setVersionRaises = false) ∧
    (f.setVersionRaises = false →
        (check_and_migrate f true db).2.log = db.log ++ [1]) ∧
    (f.setVersionRaises = true →
        (check_and_migrate f true db).2.log = db.log ∧
        startupAborts (check_and_migrate f true db) = true) := by
  have hne := ne_of_lt h
  rcases f with ⟨si, sv⟩
  cases si <;> cases sv <;>
    simp [check_and_migrate, hne, h, migrate_to_v1, set_db_version,
      startupAborts, create_db_version_table_log, ensureV1Tables_log]

/-- C2 (witness): a fault-free migration of an empty database succeeds and
logs version 1; one whose version insert raises reports failure, logs
nothing, and aborts startup. -/
theorem C2_step_exception_behavior_witness :
    (check_and_migrate ⟨false, false⟩ true ⟨[], []⟩).1 = true ∧
    (check_and_migrate ⟨false, false⟩ true ⟨[], []⟩).2.log = [1] ∧
    (check_and_migrate ⟨false, true⟩ true ⟨[], []⟩).2.log = [] ∧
    startupAborts (check_and_migrate ⟨false, true⟩ true ⟨[], []⟩) = true := by
  have h1 := C2_step_exception_behavior ⟨false, false⟩ ⟨[], []⟩ (by decide)
  have h2 := C2_step_exception_behavior ⟨false, true⟩ ⟨[], []⟩ (by decide)
  exact ⟨h1.1.mpr rfl, h1.2.1 rfl, (h2.2.2 rfl).1, (h2.2.2 rfl).2⟩

/-- C3.  For every pair of dates with `lastInspectionDate <
nextInspectionDate`, the computed `inspectionProgress` is `0` when today
equals `nextInspectionDate` and `100` when today equals
`lastInspectionDate`. -/
theorem C3_progress_endpoints (last next today : Date)
    (h : last.toOrdinal < next.toOrdinal) :
    (today = next → inspectionProgress (some last) (some next) today = 0) ∧
    (today = last → inspectionProgress (some last) (some next) today = 100) := by
  constructor
  · intro h1
    subst h1
    have ht : (0:ℤ) < today.toOrdinal - last.toOrdinal := by omega
    simp only [inspectionProgress, inspectionProgressRaw, daysBetween, sub_self]
    rw [if_pos ht]
    norm_num [round2]
  · intro h1
    subst h1
    have ht : (0:ℤ) < next.toOrdinal - today.toOrdinal := by omega
    have hne : ((next.toOrdinal - today.toOrdinal : ℤ) : ℚ) ≠ 0 := by
      exact_mod_cast ht.ne'
    simp only [inspectionProgress, inspectionProgressRaw, daysBetween]
    rw [if_pos ht, div_self hne]
    norm_num [round2]

/-- C3 (witness): with `last=2024-01-15` and `next=2024-07-15`, progress is
`0` on 2024-07-15 and `100` on 2024-01-15. -/
theorem C3_progress_endpoints_witness :
    inspectionProgress (some ⟨2024, 1, 15⟩) (some ⟨2024, 7, 15⟩) ⟨2024, 7, 15⟩
        = 0 ∧
    inspectionProgress (some ⟨2024, 1, 15⟩) (some ⟨2024, 7, 15⟩) ⟨2024, 1, 15⟩
        = 100 :=
  ⟨(C3_progress_endpoints ⟨2024, 1, 15⟩ ⟨2024, 7, 15⟩ ⟨2024, 7, 15⟩
      (by decide)).1 rfl,
   (C3_progress_endpoints ⟨2024, 1, 15⟩ ⟨2024, 7, 15⟩ ⟨2024, 1, 15⟩
      (by decide)).2 rfl⟩

/-- C4.  For every part with a `nextInspectionDate` and every value of today:
`expired` holds iff `daysToInspection < 0`; `urgent`, `warning` and `normal`
are characterized by `monthsDiff = daysToInspection / 30` against the
boundaries 3 and 6 exactly as claimed; and for `daysToInspection ≥ 0` exactly
one of the three non-expired bands holds (no gap, no overlap). -/
theorem C4_status_banding (next today : Date) :
    (matchesInspectionStatus "expired" (some next) today = true ↔
        daysBetween next today < 0) ∧
    (matchesInspectionStatus "urgent" (some next) today = true ↔
        0 ≤ ((daysBetween next today : ℚ) / 30) ∧
          ((daysBetween next today : ℚ) / 30) ≤ 3) ∧
    (matchesInspectionStatus "warning" (some next) today = true ↔
        3 < ((daysBetween next today : ℚ) / 30) ∧
          ((daysBetween next today : ℚ) / 30) ≤ 6) ∧
    (matchesInspectionStatus "normal" (some next) today = true ↔
        6 < ((daysBetween next today : ℚ) / 30)) ∧
    (0 ≤ daysBetween next today →
      (matchesInspectionStatus "urgent" (some next) today).toNat
      + (matchesInspectionStatus "warning" (some next) today).toNat
      + (matchesInspectionStatus "normal" (some next) today).toNat = 1) := by
  have he : matchesInspectionStatus "expired" (some next) today
      = decide (daysBetween next today < 0) := by
    simp [matchesInspectionStatus]
  have hu : matchesInspectionStatus "urgent" (some next) today
      = decide (0 ≤ ((daysBetween next today : ℚ) / 30)
          ∧ ((daysBetween next today : ℚ) / 30) ≤ 3) := by
    simp [matchesInspectionStatus]
  have hw : matchesInspectionStatus "warning" (some next) today
      = decide (3 < ((daysBetween next today : ℚ) / 30)
          ∧ ((daysBetween next today : ℚ) / 30) ≤ 6) := by
    simp [matchesInspectionStatus]
  have hn : matchesInspectionStatus "normal" (some next) today
      = decide (6 < ((daysBetween next today : ℚ) / 30)) := by
    simp [matchesInspectionStatus]
  refine ⟨?_, ?_, ?_, ?_, ?_⟩
  · rw [he]; exact decide_eq_true_iff
  · rw [hu]; exact decide_eq_true_iff
  · rw [hw]; exact decide_eq_true_iff
  · rw [hn]; exact decide_eq_true_iff
  · intro hd
    have hq0 : (0:ℚ) ≤ (daysBetween next today : ℚ) / 30 := by
      apply div_nonneg _ (by norm_num)
      exact_mod_cast hd
    rw [hu, hw, hn]
    rcases le_or_lt ((daysBetween next today : ℚ) / 30) 3 with h3 | h3
    · rw [decide_eq_true (⟨hq0, h3⟩ : _ ∧ _),
        decide_eq_false (by rintro ⟨a, b⟩; linarith),
        decide_eq_false (by intro a; linarith)]
      rfl
    · rcases le_or_lt ((daysBetween next today : ℚ) / 30) 6 with h6 | h6
      · rw [decide_eq_false (by rintro ⟨a, b⟩; linarith),
          decide_eq_true (⟨h3, h6⟩ : _ ∧ _),
          decide_eq_false (by intro a; linarith)]
        rfl
      · rw [decide_eq_false (by rintro ⟨a, b⟩; linarith),
          decide_eq_false (by rintro ⟨a, b⟩; linarith),
          decide_eq_true h6]
        rfl

/-- C4 (witness): on 2024-01-01 a part due 2024-04-01 (91 days out) is in
exactly one band, namely `warning`. -/
theorem C4_status_banding_witness :
    matchesInspectionStatus "warning" (some ⟨2024, 4, 1⟩) ⟨2024, 1, 1⟩ = true ∧
    (matchesInspectionStatus "urgent" (some ⟨2024, 4, 1⟩) ⟨2024, 1, 1⟩).toNat
      + (matchesInspectionStatus "warning" (some ⟨2024, 4, 1⟩) ⟨2024, 1, 1⟩).toNat
      + (matchesInspectionStatus "normal" (some ⟨2024, 4, 1⟩) ⟨2024, 1, 1⟩).toNat
      = 1 :=
by
  have hd : daysBetween ⟨2024, 4, 1⟩ ⟨2024, 1, 1⟩ = 91 := by decide
  constructor
  · exact (C4_status_banding ⟨2024, 4, 1⟩ ⟨2024, 1, 1⟩).2.2.1.mpr
      (by rw [hd]; norm_num)
  · exact (C4_status_banding ⟨2024, 4, 1⟩ ⟨2024, 1, 1⟩).2.2.2.2
      (by rw [hd]; norm_num)

/-- C5.  Running `check_and_migrate` twice in a row (fault-free) from any
starting database state succeeds both times, and the second run is a complete
no-op — in particular it appends no further version-log entry. -/
theorem C5_migrator_idempotent (fileExists : Bool) (db : MigDB) :
    (check_and_migrate noFaults fileExists db).1 = true ∧
    check_and_migrate noFaults fileExists
        (check_and_migrate noFaults fileExists db).2
      = (true, (check_and_migrate noFaults fileExists db).2) := by
  cases fileExists with
  | false => simp [check_and_migrate]
  | true =>
    have hmem : "db_version" ∈ (create_db_version_table db).tables :=
      create_db_version_table_mem db
    by_cases h1 : get_db_version (create_db_version_table db) = CURRENT_DB_VERSION
    · have hrun : check_and_migrate noFaults true db
          = (true, create_db_version_table db) := by
        simp [check_and_migrate, h1]
      rw [hrun]
      refine ⟨rfl, ?_⟩
      simp [check_and_migrate, create_db_version_table_of_mem _ hmem, h1]
    · by_cases h2 : get_db_version (create_db_version_table db) < CURRENT_DB_VERSION
      · have hrun : check_and_migrate noFaults true db
            = (true, { ensureV1Tables (create_db_version_table db) with
                log := (ensureV1Tables (create_db_version_table db)).log ++ [1] }) := by
          simp [check_and_migrate, h1, h2, migrate_to_v1, set_db_version, noFaults]
        rw [hrun]
        refine ⟨rfl, ?_⟩
        have hmem2 : "db_version" ∈
            ({ ensureV1Tables (create_db_version_table db) with
                log := (ensureV1Tables (create_db_version_table db)).log ++ [1] }
              : MigDB).tables :=
          ensureV1Tables_mem _ _ hmem
        have hv2 : get_db_version
            ({ ensureV1Tables (create_db_version_table db) with
                log := (ensureV1Tables (create_db_version_table db)).log ++ [1] }
              : MigDB)
            = CURRENT_DB_VERSION := by
          unfold get_db_version
          rw [if_pos hmem2]
          simp [CURRENT_DB_VERSION]
        simp [check_and_migrate, create_db_version_table_of_mem _ hmem2, hv2]
      · have hrun : check_and_migrate noFaults true db
            = (true, create_db_version_table db) := by
          simp [check_and_migrate, h1, h2]
        rw [hrun]
        refine ⟨rfl, ?_⟩
        simp [check_and_migrate, create_db_version_table_of_mem _ hmem, h1, h2]

/-- C6.  Counterexample to the claim as stated: an update request supplying
`purchase_date: null` does not clear the stored purchase date — the
`if 'purchase_date' in data and data['purchase_date']:` guard treats the
falsy `null` as "do not write", so the stored value survives. -/
theorem C6_counterexample :
    (applySparePartUpdate samplePart
        { emptyUpdate with purchaseDate := .null }).purchaseDate
      = some ⟨2020, 5, 1⟩ ∧
    (some (⟨2020, 5, 1⟩ : Date) : Option Date) ≠ none := by
  decide

/-- C6 (amended).  For every SparePart update request and every updatable
field: an absent field leaves the stored value unchanged, and a `null` field
clears the stored value — except `purchase_date`, which is written only when
supplied non-null, so both an absent and a `null` `purchase_date` leave the
stored value unchanged. -/
theorem C6_partial_update_fields (sp : SparePart) (u : SparePartUpdate) :
    (u.purchaseDate = .absent →
        (applySparePartUpdate sp u).purchaseDate = sp.purchaseDate) ∧
    (u.purchaseDate = .null →
        (applySparePartUpdate sp u).purchaseDate = sp.purchaseDate) ∧
    (∀ d, u.purchaseDate = .val d →
        (applySparePartUpdate sp u).purchaseDate = some d) ∧
    (u.name = .absent →
        (applySparePartUpdate sp u).name = sp.name) ∧
    (u.name = .null →
        (applySparePartUpdate sp u).name = none) ∧
    (u.deviceType = .absent →
        (applySparePartUpdate sp u).deviceType = sp.deviceType) ∧
    (u.deviceType = .null →
        (applySparePartUpdate sp u).deviceType = none) ∧
    (u.lastInspectionDate = .absent →
        (applySparePartUpdate sp u).lastInspectionDate = sp.lastInspectionDate) ∧
    (u.lastInspectionDate = .null →
        (applySparePartUpdate sp u).lastInspectionDate = none) ∧
    (u.nextInspectionDate = .absent →
        (applySparePartUpdate sp u).nextInspectionDate = sp.nextInspectionDate) ∧
    (u.nextInspectionDate = .null →
        (applySparePartUpdate sp u).nextInspectionDate = none) ∧
    (u.usageStatus = .absent →
        (applySparePartUpdate sp u).usageStatus = sp.usageStatus) ∧
    (u.usageStatus = .null →
        (applySparePartUpdate sp u).usageStatus = none) ∧
    (u.storageLocation = .absent →
        (applySparePartUpdate sp u).storageLocation = sp.storageLocation) ∧
    (u.storageLocation = .null →
        (applySparePartUpdate sp u).storageLocation = none) ∧
    (u.specifications = .absent →
        (applySparePartUpdate sp u).specifications = sp.specifications) ∧
    (u.specifications = .null →
        (applySparePartUpdate sp u).specifications = none) ∧
    (u.manufacturer = .absent →
        (applySparePartUpdate sp u).manufacturer = sp.manufacturer) ∧
    (u.manufacturer = .null →
        (applySparePartUpdate sp u).manufacturer = none) ∧
    (u.warrantyPeriod = .absent →
        (applySparePartUpdate sp u).warrantyPeriod = sp.warrantyPeriod) ∧
    (u.warrantyPeriod = .null →
        (applySparePartUpdate sp u).warrantyPeriod = none) ∧
    (u.unitPrice = .absent →
        (applySparePartUpdate sp u).unitPrice = sp.unitPrice) ∧
    (u.unitPrice = .null →
        (applySparePartUpdate sp u).unitPrice = none) ∧
    (u.remarks = .absent →
        (applySparePartUpdate sp u).remarks = sp.remarks) ∧
    (u.remarks = .null →
        (applySparePartUpdate sp u).remarks = none) ∧
    (u.ownership = .absent →
        (applySparePartUpdate sp u).ownership = sp.ownership) ∧
    (u.ownership = .null →
        (applySparePartUpdate sp u).ownership = none) ∧
    (u.productNumber = .absent →
        (applySparePartUpdate sp u).productNumber = sp.productNumber) ∧
    (u.productNumber = .null →
        (applySparePartUpdate sp u).productNumber = none) := by
  refine ⟨?_, ?_, ?_, ?_, ?_, ?_, ?_, ?_, ?_, ?_, ?_, ?_, ?_, ?_, ?_, ?_, ?_, ?_, ?_, ?_, ?_, ?_, ?_, ?_, ?_, ?_, ?_, ?_, ?_⟩ <;>
    · intros
      simp_all [applySparePartUpdate, JField.apply, JField.applyTruthyOnly]

/-- C6 (witness): the sample part updated with `purchase_date: null`,
`remarks: null` and nothing else keeps its purchase date, clears its remarks,
and keeps its (absent-from-payload) name. -/
theorem C6_partial_update_fields_witness :
    (applySparePartUpdate samplePart c6Update).purchaseDate
        = samplePart.purchaseDate ∧
    (applySparePartUpdate samplePart c6Update).remarks = none ∧
    (applySparePartUpdate samplePart c6Update).name = samplePart.name := by
  have h := C6_partial_update_fields samplePart c6Update
  exact ⟨h.2.1 rfl, (h.2.2.2.2.2.2.2.2.2.2.2.2.2.2.2.2.2.2.2.2.2.2.2.2.1) rfl,
    h.2.2.2.1 rfl⟩

/-- C7.  The code violates the claim: creating a maintenance record whose
`spare_part_id` names no existing SparePart persists the record and answers
success ("record created, part synchronized") while no SparePart was
updated — the `if spare_part:` guard silently skips the second write and the
sqlite foreign key is not enforced, so the commit succeeds. -/
theorem C7_silent_partial_success :
    (create_maintenance_record 0 ⟨[], []⟩ c7Payload).1 = true ∧
    (create_maintenance_record 0 ⟨[], []⟩ c7Payload).2.records.map
        (fun r => r.sparePartId) = [1] ∧
    (create_maintenance_record 0 ⟨[], []⟩ c7Payload).2.parts = [] := by
  decide

/-- C8.  The code violates the claim: starting from the enabled state with
one scheduled job, disabling auto backup succeeds (and stops the scheduler),
but re-enabling with a new time fails — `shutdown_backup_scheduler` calls
`shutdown()` on the already-stopped scheduler still held by the global,
APScheduler raises `SchedulerNotRunningError`, the route answers 500, and no
job is scheduled — zero active jobs instead of exactly one at 03:00 (while
the new config was already persisted). -/
theorem C8_reenable_loses_job :
    (update_backup_config c8Init c8Disable).1 = true ∧
    activeJobs (update_backup_config c8Init c8Disable).2.scheduler = [] ∧
    (update_backup_config (update_backup_config c8Init c8Disable).2
        c8Reenable).1 = false ∧
    activeJobs (update_backup_config (update_backup_config c8Init c8Disable).2
        c8Reenable).2.scheduler = [] ∧
    (update_backup_config (update_backup_config c8Init c8Disable).2
        c8Reenable).2.config.autoBackupEnabled = true := by
  decide

/-- C9.  Every artifact name lacking both recognized prefixes is rejected by
the download and delete routes with a validation error before any file-system
access (the access trace is empty and the directory unchanged), and the list
and retention-sweep operations never enumerate or delete a file whose name
lacks the prefixes. -/
theorem C9_prefix_safety (name : String) (fs : List BackupFile)
    (nowSec keepDays : Int) (h : isBackupFilename name = false) :
    (download_backup fs name).1 = FileResponse.invalidName ∧
    (download_backup fs name).2 = [] ∧
    (delete_backup fs name).1 = FileResponse.invalidName ∧
    (delete_backup fs name).2.1 = fs ∧
    (delete_backup fs name).2.2 = [] ∧
    (∀ f ∈ list_backups fs, isBackupFilename f.name = true) ∧
    (∀ f ∈ (cleanup_old_backups nowSec keepDays fs).2,
        isBackupFilename f.name = true) := by
  refine ⟨?_, ?_, ?_, ?_, ?_, ?_, ?_⟩
  · simp [download_backup, h]
  · simp [download_backup, h]
  · simp [delete_backup, h]
  · simp [delete_backup, h]
  · simp [delete_backup, h]
  · intro f hf
    exact (List.mem_filter.mp hf).2
  · intro f hf
    have hmem := (List.mem_filter.mp hf).2
    exact (Bool.and_eq_true _ _ |>.mp hmem).1

/-- C9 (witness): `"../etc/passwd"` is rejected by download and delete with
no file-system access against a directory holding one real backup and one
unrelated file. -/
theorem C9_prefix_safety_witness :
    (download_backup c9Dir "../etc/passwd").1 = FileResponse.invalidName ∧
    (download_backup c9Dir "../etc/passwd").2 = [] ∧
    (delete_backup c9Dir "../etc/passwd").2.1 = c9Dir := by
  have h := C9_prefix_safety "../etc/passwd" c9Dir 1704100000 30 (by decide)
  exact ⟨h.1, h.2.1, h.2.2.2.1⟩

/-- C10.  In the spare-parts list operation, any non-empty
`inspection_status` value outside the five recognized bands filters out every
part: the result is empty regardless of the parts that matched the other
filters. -/
theorem C10_unknown_status_filters_all (status : String) (today : Date)
    (parts : List PartRow) (hne : status ≠ "")
    (hnot : status ∉ (["no_inspection", "expired", "urgent", "warning",
        "normal"] : List String)) :
    filterByInspectionStatus status today parts = [] := by
  simp only [List.mem_cons, List.not_mem_nil, or_false, not_or] at hnot
  obtain ⟨h1, h2, h3, h4, h5⟩ := hnot
  unfold filterByInspectionStatus
  rw [if_neg (by simpa using hne)]
  rw [List.filter_eq_nil_iff]
  intro p _
  unfold matchesInspectionStatus
  match p.nextInspectionDate with
  | none => simp [h1]
  | some nxt =>
      simp [beq_eq_false_iff_ne.mpr h2, beq_eq_false_iff_ne.mpr h3,
        beq_eq_false_iff_ne.mpr h4, beq_eq_false_iff_ne.mpr h5]

/-- C10 (witness): the unrecognized filter value `"overdue"` empties a list
containing both a dated and an undated part. -/
theorem C10_unknown_status_filters_all_witness :
    filterByInspectionStatus "overdue" ⟨2024, 1, 1⟩
      [⟨some ⟨2024, 4, 1⟩⟩, ⟨none⟩] = [] :=
  C10_unknown_status_filters_all "overdue" ⟨2024, 1, 1⟩
    [⟨some ⟨2024, 4, 1⟩⟩, ⟨none⟩] (by decide) (by decide)

end SparePartsSys
